import Mathlib

/-!
Verification of the Planfix contact-search tool
(`src/tools/planfix_search_contact.ts`).

The remote CRM is modelled as an oracle: a function from the index of the
outbound call (0-based, in the order the calls are issued) to the response of
that call, which is either a thrown error message or a list of contact
records.  External collaborators that are not part of the excerpt
(`getContactUrl`, the custom-filter extender) are modelled as parameters,
following the spec's contracts for them.
-/

namespace Planfix

/-! ## JavaScript string primitives -/

/-- The character class matched by `\s` in a JavaScript regular expression
(also the set stripped by `String.prototype.trim`). -/
def isJsWhitespace (c : Char) : Bool :=
  c == ' ' || c == '\t' || c == '\n' || c.val == 11 || c.val == 12 || c == '\r' ||
  c.val == 0xa0 || c.val == 0x1680 || (0x2000 ≤ c.val && c.val ≤ 0x200a) ||
  c.val == 0x2028 || c.val == 0x2029 || c.val == 0x202f || c.val == 0x205f ||
  c.val == 0x3000 || c.val == 0xfeff

/-- JS `String.prototype.trim`: strip JS whitespace from both ends. -/
def jsTrim (s : String) : String :=
  ⟨((s.toList.dropWhile isJsWhitespace).reverse.dropWhile isJsWhitespace).reverse⟩

/-- JS `s.trim().includes(" ")`: the whitespace heuristic guarding the name
stages (a single space character is searched for). -/
def trimIncludesSpace (s : String) : Bool :=
  (jsTrim s).toList.contains ' '

/-- JS `s.startsWith("@")`. -/
def startsWithAt (s : String) : Bool :=
  s.toList.head? == some '@'

/-- JS `s.toLowerCase()`.  (Real `toLowerCase` is Unicode-aware; it is modelled by
per-character `Char.toLower`, which lowercases ASCII letters.) -/
def jsToLower (s : String) : String :=
  ⟨s.toList.map Char.toLower⟩

/-- One character of the phone character class `[+\d\s\-()]`
(`\d` is `[0-9]` in a non-unicode JS regex). -/
def isPhoneChar (c : Char) : Bool :=
  c == '+' || c.isDigit || isJsWhitespace c || c == '-' || c == '(' || c == ')'

/-- The test `/^[+\d\s\-()]{5,}$/.test s`: at least five characters, all drawn from the
phone character class. -/
def phonePatternTest (s : String) : Bool :=
  5 ≤ s.toList.length && s.toList.all isPhoneChar

/-- JS `s.replace(/^@/, "")`: remove one leading `@` when present. -/
def stripAt (s : String) : String :=
  if startsWithAt s then ⟨s.toList.tail⟩ else s

/-- JS `s.replace(/^@/, "").toLowerCase()`: the telegram normalization. -/
def tgNorm (s : String) : String :=
  jsToLower (stripAt s)

/-- JS `s.startsWith("@") ? s : "@" + s`. -/
def ensureAt (s : String) : String :=
  if startsWithAt s then s else "@" ++ s

/-- JS truthiness of an optional string: present and non-empty. -/
def truthyStr (o : Option String) : Prop :=
  o.getD "" ≠ ""

instance (o : Option String) : Decidable (truthyStr o) := by
  unfold truthyStr; infer_instance

/-- JS truthiness of the `contactId` variable (`number | null`). -/
def truthyId (o : Option Int) : Prop :=
  o.getD 0 ≠ 0

instance (o : Option Int) : Decidable (truthyId o) := by
  unfold truthyId; infer_instance

/-- The JS comparison `contactId > 0` (with `null > 0` being false). -/
def idGtZero (o : Option Int) : Prop :=
  0 < o.getD 0

instance (o : Option Int) : Decidable (idGtZero o) := by
  unfold idGtZero; infer_instance

/-! ## Data model -/

/-- A custom-field value of a contact record; the code only distinguishes
string values (`typeof value === "string"`) from everything else. -/
inductive JsVal where
  | str (s : String)
  | other
  deriving DecidableEq

/-- One entry of `contact.customFieldData`; `fieldId` stands for the source's
`f.field.id`. -/
structure CustomFieldDatum where
  fieldId : Int
  value : JsVal
  deriving DecidableEq

/-- A contact record as returned by the remote CRM (`ContactResponse`). -/
structure ContactResponse where
  id : Int
  name : Option String := none
  lastname : Option String := none
  telegram : Option String := none
  customFieldData : Option (List CustomFieldDatum) := none
  deriving DecidableEq

/-- The value carried by a filter (`string | number | boolean | string[]`). -/
inductive FilterVal where
  | str (s : String)
  | num (n : Int)
  | bool (b : Bool)
  | strs (l : List String)
  deriving DecidableEq

/-- The `FilterType` record sent to the remote API. -/
structure FilterType where
  type : Int
  operator : String
  value : Option FilterVal := none
  field : Option Int := none
  deriving DecidableEq

/-- Config `PLANFIX_FIELD_IDS`: which CRM field holds the telegram handle.  Each is a
numeric field id, `0` (falsy) meaning not configured. -/
structure PlanfixFieldIds where
  telegram : Int := 0
  telegramCustom : Int := 0
  deriving DecidableEq

/-- The tool's input (`PlanfixSearchContactInputSchema`), base fields only;
custom-field inputs are represented by the custom-filter list produced by the
external extender. -/
structure SearchArgs where
  name : Option String := none
  nameTranslated : Option String := none
  phone : Option String := none
  email : Option String := none
  telegram : Option String := none
  deriving DecidableEq

/-- The tool's output (`PlanfixSearchContactOutputSchema`). -/
structure SearchResult where
  contactId : Int
  url : Option String := none
  firstName : Option String := none
  lastName : Option String := none
  error : Option String := none
  found : Bool
  telegram : Option String := none
  deriving DecidableEq

/-- The response of one remote `contact/list` call: a thrown error message, or
the (possibly empty) `contacts` array. -/
abbrev PFResponse := Except String (List ContactResponse)

/-- The remote CRM, as a map from the 0-based index of an outbound call to its
response. -/
abbrev Oracle := Nat → PFResponse

/-! ## Preprocessing and filter construction -/

/-- Lines 43–45: an invalid-looking phone is overwritten with `""` (falsy),
i.e. silently treated as absent. -/
def sanitizePhone : Option String → Option String
  | none => none
  | some p =>
    if truthyStr (some p) ∧ (startsWithAt p ∨ ¬ phonePatternTest p) then some ""
    else some p

/-- The `value` of a filter built from an optional string input. -/
def optStrVal : Option String → Option FilterVal
  | none => none
  | some s => some (.str s)

/-- The telegram filter for a given value: a custom-field filter (type 4101)
when `telegramCustom` is configured, else a built-in filter (type 4226) when
`telegram` is configured, else none. -/
def mkTgFilter (cfg : PlanfixFieldIds) (v : String) : Option FilterType :=
  if cfg.telegramCustom ≠ 0 then
    some { type := 4101, field := some cfg.telegramCustom, operator := "equal",
           value := some (.str v) }
  else if cfg.telegram ≠ 0 then
    some { type := 4226, operator := "equal", value := some (.str v) }
  else none

/-- The `filters` record (lines 66–166). -/
structure Filters where
  byName : Option FilterType
  byNameTranslated : Option FilterType
  byPhone : Option FilterType
  byEmail : Option FilterType
  byTelegram : Option FilterType
  byTelegramWithAt : Option FilterType
  byTelegramOriginalCase : Option FilterType
  byTelegramOriginalCaseWithAt : Option FilterType
  byTelegramUrl : Option FilterType
  deriving DecidableEq

/-- Construction of the `filters` record from the (sanitized) inputs.  The
first four are always objects (truthy); the five telegram variants exist only
when a telegram value was supplied and a telegram field is configured. -/
def buildFilters (cfg : PlanfixFieldIds) (args : SearchArgs) (phone : Option String) :
    Filters :=
  let telegram := args.telegram
  { byName := some { type := 4001, operator := "equal", value := optStrVal args.name }
    byNameTranslated :=
      some { type := 4001, operator := "equal", value := optStrVal args.nameTranslated }
    byPhone := some { type := 4003, operator := "equal", value := optStrVal phone }
    byEmail := some { type := 4026, operator := "equal", value := optStrVal args.email }
    byTelegram :=
      if truthyStr telegram then mkTgFilter cfg (tgNorm (telegram.getD "")) else none
    byTelegramWithAt :=
      if truthyStr telegram then mkTgFilter cfg ("@" ++ tgNorm (telegram.getD "")) else none
    byTelegramOriginalCase :=
      if truthyStr telegram then mkTgFilter cfg (stripAt (telegram.getD "")) else none
    byTelegramOriginalCaseWithAt :=
      if truthyStr telegram then mkTgFilter cfg (ensureAt (telegram.getD "")) else none
    byTelegramUrl :=
      if truthyStr telegram then mkTgFilter cfg ("https://t.me/" ++ stripAt (telegram.getD ""))
      else none }

/-! ## Per-attempt search -/

/-- Lines 176–188: extract and normalize the telegram value of a matched
contact record; `""` when nothing extractable. -/
def extractTelegramFromContact (cfg : PlanfixFieldIds) (contact : ContactResponse) : String :=
  if cfg.telegramCustom ≠ 0 then
    match (contact.customFieldData.getD []).find? (fun f => f.fieldId == cfg.telegramCustom) with
    | some tgField =>
      match tgField.value with
      | .str v => tgNorm v
      | .other => ""
    | none => ""
  else if cfg.telegram ≠ 0 ∧ truthyStr contact.telegram then
    tgNorm (contact.telegram.getD "")
  else ""

/-- Lines 190–232 (`searchWithFilter`), applied to the response of the call it
makes: a thrown error is caught and becomes `{contactId: 0, error, found:
false}`; otherwise only `contacts[0]` is consulted. -/
def searchWithFilter (cfg : PlanfixFieldIds) (resp : PFResponse) : SearchResult :=
  match resp with
  | .error e => { contactId := 0, error := some e, found := false }
  | .ok contacts =>
    match contacts.head? with
    | some contact =>
      let contactTelegram := extractTelegramFromContact cfg contact
      { contactId := contact.id
        firstName := contact.name
        lastName := contact.lastname
        found := true
        telegram := if contactTelegram = "" then none else some contactTelegram }
    | none => { contactId := 0, found := false }

/-! ## The cascade -/

/-- The mutable state of the cascade: the index of the next outbound call, the
`contactId` variable (`number | null`), the `result` variable, and the trace
of filters sent so far. -/
structure CascadeState where
  k : Nat
  contactId : Option Int
  result : Option SearchResult
  trace : List FilterType
  deriving DecidableEq

/-- Issue one remote call with the given filter: `result = await
searchWithFilter(f); contactId = result.contactId`. -/
def doSearch (cfg : PlanfixFieldIds) (oracle : Oracle) (f : FilterType)
    (st : CascadeState) : CascadeState :=
  let r := searchWithFilter cfg (oracle st.k)
  { k := st.k + 1, contactId := some r.contactId, result := some r,
    trace := st.trace ++ [f] }

/-- The `result.telegram` value as seen by the cross-check. -/
def resultTelegram (st : CascadeState) : Option String :=
  st.result.bind (fun r => r.telegram)

/-- The email stage (lines 236–239) and phone stage (lines 240–243):
`if (!contactId && <input truthy> && <filter>) { search }`. -/
def simpleStage (cfg : PlanfixFieldIds) (oracle : Oracle) (inputTruthy : Prop)
    [Decidable inputTruthy] (f : Option FilterType) (st : CascadeState) : CascadeState :=
  if (¬ truthyId st.contactId) ∧ inputTruthy then
    match f with
    | some ff => doSearch cfg oracle ff st
    | none => st
  else st

/-- The name stage (lines 244–258) and translated-name stage (lines 259–278):
guarded by the whitespace heuristic, followed by the telegram cross-check that
can reset the match (`contactId = null; result = undefined`). -/
def nameStage (cfg : PlanfixFieldIds) (oracle : Oracle) (suppliedTelegram : Option String)
    (nameVal : Option String) (f : Option FilterType) (st : CascadeState) : CascadeState :=
  if (¬ truthyId st.contactId) ∧ truthyStr nameVal ∧
      trimIncludesSpace (nameVal.getD "") = true then
    match f with
    | some ff =>
      let st' := doSearch cfg oracle ff st
      if truthyStr suppliedTelegram ∧ idGtZero st'.contactId ∧
          truthyStr (resultTelegram st') then
        let expectedTelegram := tgNorm (suppliedTelegram.getD "")
        let foundTelegram := (resultTelegram st').getD ""
        if expectedTelegram ≠ foundTelegram then
          { st' with contactId := none, result := none }
        else st'
      else st'
    | none => st
  else st

/-- One telegram variant attempt after the first:
`if (!contactId && filters.<variant>) { search }`. -/
def tgTry (cfg : PlanfixFieldIds) (oracle : Oracle) (f : Option FilterType)
    (st : CascadeState) : CascadeState :=
  if ¬ truthyId st.contactId then
    match f with
    | some ff => doSearch cfg oracle ff st
    | none => st
  else st

/-- The telegram stage (lines 279–300): the five variants in source order. -/
def telegramStage (cfg : PlanfixFieldIds) (oracle : Oracle) (fl : Filters)
    (telegram : Option String) (st : CascadeState) : CascadeState :=
  if (¬ truthyId st.contactId) ∧ truthyStr telegram then
    let a := match fl.byTelegram with
      | some ff => doSearch cfg oracle ff st
      | none => st
    let b := tgTry cfg oracle fl.byTelegramWithAt a
    let c := tgTry cfg oracle fl.byTelegramOriginalCase b
    let d := tgTry cfg oracle fl.byTelegramOriginalCaseWithAt c
    tgTry cfg oracle fl.byTelegramUrl d
  else st

/-- The custom-filter loop body (lines 302–306). -/
def customLoop (cfg : PlanfixFieldIds) (oracle : Oracle) :
    List FilterType → CascadeState → CascadeState
  | [], st => st
  | cf :: rest, st =>
    if truthyId st.contactId then st
    else customLoop cfg oracle rest (doSearch cfg oracle cf st)

/-- The whole cascade (lines 234–307) over already-destructured inputs. -/
def runStages (cfg : PlanfixFieldIds) (oracle : Oracle)
    (email nameV nameTranslatedV telegram phone : Option String)
    (fl : Filters) (customFilters : List FilterType) : CascadeState :=
  let st0 : CascadeState := { k := 0, contactId := none, result := none, trace := [] }
  let st1 := simpleStage cfg oracle (truthyStr email) fl.byEmail st0
  let st2 := simpleStage cfg oracle (truthyStr phone) fl.byPhone st1
  let st3 := nameStage cfg oracle telegram nameV fl.byName st2
  let st4 := nameStage cfg oracle telegram nameTranslatedV fl.byNameTranslated st3
  let st5 := telegramStage cfg oracle fl telegram st4
  if (¬ truthyId st5.contactId) ∧ customFilters ≠ [] then
    customLoop cfg oracle customFilters st5
  else st5

/-- The cascade applied to the tool's inputs: phone sanitation, filter
construction, then the six stages.  `customFilters` is the list produced by
the external custom-filter extender (spec §4.2), taken as a parameter. -/
def runCascade (cfg : PlanfixFieldIds) (args : SearchArgs)
    (customFilters : List FilterType) (oracle : Oracle) : CascadeState :=
  runStages cfg oracle args.email args.name args.nameTranslated args.telegram
    (sanitizePhone args.phone)
    (buildFilters cfg args (sanitizePhone args.phone)) customFilters

/-- Modelled from the spec: `getContactUrl` (the URL Builder, `helpers.js`) is
external code absent from the excerpt; per §2 it maps a contact ID to a
user-facing CRM URL.  It is modelled as a parameter; its `Except` result
captures that external JS code may throw, which is what the outer defensive
`catch` (lines 319–328) guards against. -/
abbrev UrlBuilder := Int → Except String String

/-- Function `planfixSearchContact` (lines 37–329): the cascade, output finalization
(lines 308–318), and the outer defensive catch (lines 319–328); paired with
the trace of filters sent to the remote API. -/
def planfixSearchContactImpl (cfg : PlanfixFieldIds) (args : SearchArgs)
    (customFilters : List FilterType) (oracle : Oracle) (getContactUrl : UrlBuilder) :
    SearchResult × List FilterType :=
  let st := runCascade cfg args customFilters oracle
  let cid : Int := st.contactId.getD 0
  match getContactUrl cid with
  | .ok url =>
    ({ contactId := cid
       url := some url
       firstName := st.result.bind (fun r => r.firstName)
       lastName := st.result.bind (fun r => r.lastName)
       found := decide (0 < cid) }, st.trace)
  | .error e =>
    ({ contactId := 0, error := some e, found := false }, st.trace)

/-- The result returned to the caller. -/
def planfixSearchContact (cfg : PlanfixFieldIds) (args : SearchArgs)
    (customFilters : List FilterType) (oracle : Oracle) (getContactUrl : UrlBuilder) :
    SearchResult :=
  (planfixSearchContactImpl cfg args customFilters oracle getContactUrl).1

/-- The sequence of filters sent to the remote API, in order. -/
def searchCalls (cfg : PlanfixFieldIds) (args : SearchArgs)
    (customFilters : List FilterType) (oracle : Oracle) (getContactUrl : UrlBuilder) :
    List FilterType :=
  (planfixSearchContactImpl cfg args customFilters oracle getContactUrl).2

end Planfix

namespace Planfix

/-! ## Derived notions used by the verification -/

/-- Does a remote response contain at least one contact? -/
def respHasContact : PFResponse → Bool
  | .ok l => l.head?.isSome
  | .error _ => false

/-- How many calls a run of at most `n` sequential attempts starting at call
index `k` makes, stopping after the first response that contains a contact. -/
def stopCount (oracle : Oracle) (k : Nat) : Nat → Nat
  | 0 => 0
  | n + 1 => if respHasContact (oracle k) then 1 else 1 + stopCount oracle (k + 1) n

/-- The five telegram variant values, in source order (lines 87–166):
lowercase with `@` stripped, the same re-prefixed with `@`, original case with
`@` stripped, original case with `@` ensured, and the `t.me` URL with the
original case preserved. -/
def tgVariantValues (t : String) : List String :=
  [tgNorm t, "@" ++ tgNorm t, stripAt t, ensureAt t, "https://t.me/" ++ stripAt t]

/-- The filter a telegram variant value is wrapped in when a telegram field is
configured. -/
def tgFilterOf (cfg : PlanfixFieldIds) (v : String) : FilterType :=
  if cfg.telegramCustom ≠ 0 then
    { type := 4101, field := some cfg.telegramCustom, operator := "equal",
      value := some (.str v) }
  else { type := 4226, operator := "equal", value := some (.str v) }

/-- A chain of guarded attempts: try each filter in order while no contact has
been found. -/
def tryChain (cfg : PlanfixFieldIds) (oracle : Oracle) :
    List FilterType → CascadeState → CascadeState
  | [], st => st
  | f :: rest, st =>
    if ¬ truthyId st.contactId then tryChain cfg oracle rest (doSearch cfg oracle f st)
    else st

/-- Replace a thrown remote response by an empty (no-contact) response. -/
def deErr : PFResponse → PFResponse
  | .error _ => .ok []
  | .ok l => .ok l

/-- Forget the per-attempt `error` field of a result. -/
def scrubErr (r : SearchResult) : SearchResult := { r with error := none }

/-- Two cascade states that agree except possibly on the `error` field of the
pending per-attempt result. -/
def stEquiv (s1 s2 : CascadeState) : Prop :=
  s1.k = s2.k ∧ s1.contactId = s2.contactId ∧ s1.trace = s2.trace ∧
    s1.result.map scrubErr = s2.result.map scrubErr

/-! ## Basic lemmas -/

lemma simpleStage_skip {cfg : PlanfixFieldIds} {oracle : Oracle} {cond : Prop}
    [Decidable cond] {f : Option FilterType} (h : ¬ cond) (st : CascadeState) :
    simpleStage cfg oracle cond f st = st := by
  unfold simpleStage
  rw [if_neg (fun hc => h hc.2)]

lemma nameStage_skip {cfg : PlanfixFieldIds} {oracle : Oracle} {tg nv : Option String}
    {f : Option FilterType}
    (h : ¬ (truthyStr nv ∧ trimIncludesSpace (nv.getD "") = true))
    (st : CascadeState) :
    nameStage cfg oracle tg nv f st = st := by
  unfold nameStage
  rw [if_neg (fun hc => h ⟨hc.2.1, hc.2.2⟩)]

lemma telegramStage_skip {cfg : PlanfixFieldIds} {oracle : Oracle} {fl : Filters}
    {tg : Option String} (h : ¬ truthyStr tg) (st : CascadeState) :
    telegramStage cfg oracle fl tg st = st := by
  unfold telegramStage
  rw [if_neg (fun hc => h hc.2)]

lemma sanitizePhone_invalid {p : String}
    (h : startsWithAt p = true ∨ phonePatternTest p = false) :
    sanitizePhone (some p) = some "" := by
  simp only [sanitizePhone]
  by_cases hp : p = ""
  · subst hp
    rcases h with h | h <;> simp_all [phonePatternTest]
  · rw [if_pos]
    refine ⟨by simpa [truthyStr] using hp, ?_⟩
    rcases h with h | h
    · exact Or.inl h
    · exact Or.inr (by simp [h])


/-! ## Claim theorems: C2, C1, C6 -/

/-- Claim C2: for every input and every sequence of remote responses, the
result of `planfixSearchContact` has `found = true` iff `contactId > 0`. -/
theorem found_iff_contactId_pos (cfg : PlanfixFieldIds) (args : SearchArgs)
    (cfs : List FilterType) (oracle : Oracle) (getUrl : UrlBuilder) :
    (planfixSearchContact cfg args cfs oracle getUrl).found = true ↔
      0 < (planfixSearchContact cfg args cfs oracle getUrl).contactId := by
  unfold planfixSearchContact planfixSearchContactImpl
  dsimp only
  split <;> simp

/-- Claim C1 counterexample: the cascade matches a contact by email whose
record carries the extractable telegram value `"@FooBar"` (normalizing to
`"foobar"`), yet the result returned to the caller has no `telegram` field:
the final return (source lines 312–318) omits it. -/
theorem caller_telegram_cex :
    (planfixSearchContact { telegram := 131 } { email := some "john@example.com" } []
      (fun _ => .ok [{ id := 1, name := some "John", lastname := some "Doe",
                       telegram := some "@FooBar" }])
      (fun _ => .ok "u")).telegram = none ∧
    extractTelegramFromContact { telegram := 131 }
      { id := 1, name := some "John", lastname := some "Doe",
        telegram := some "@FooBar" } = "foobar" ∧
    (planfixSearchContact { telegram := 131 } { email := some "john@example.com" } []
      (fun _ => .ok [{ id := 1, name := some "John", lastname := some "Doe",
                       telegram := some "@FooBar" }])
      (fun _ => .ok "u")).contactId = 1 := by
  refine ⟨?_, ?_, ?_⟩ <;> rfl

/-- Claim C1 (amended): the normalized telegram of the matched record is
surfaced (empty as `undefined`) in the per-attempt result of
`searchWithFilter`, but the result returned to the caller never contains a
`telegram` field. -/
theorem telegram_surfaced_per_attempt_only (cfg : PlanfixFieldIds)
    (c : ContactResponse) (l : List ContactResponse) (args : SearchArgs)
    (cfs : List FilterType) (oracle : Oracle) (getUrl : UrlBuilder) :
    (searchWithFilter cfg (.ok (c :: l))).telegram =
      (if extractTelegramFromContact cfg c = "" then none
       else some (extractTelegramFromContact cfg c)) ∧
    (planfixSearchContact cfg args cfs oracle getUrl).telegram = none := by
  constructor
  · rfl
  · unfold planfixSearchContact planfixSearchContactImpl
    dsimp only
    split <;> rfl

/-- Claim C6 counterexample: when the external URL builder throws, the outer
defensive catch (source lines 319–328) returns a result with `contactId = 0`
and no `url` field at all, contradicting "the result contains a `url` field
derived from its `contactId`, including the outer defensive catch path". -/
theorem outer_catch_url_cex :
    (planfixSearchContact { telegram := 131 } { email := some "a@b.c" } []
      (fun _ => .ok []) (fun _ => .error "boom")).url = none ∧
    (planfixSearchContact { telegram := 131 } { email := some "a@b.c" } []
      (fun _ => .ok []) (fun _ => .error "boom")).contactId = 0 ∧
    (planfixSearchContact { telegram := 131 } { email := some "a@b.c" } []
      (fun _ => .ok []) (fun _ => .error "boom")).error = some "boom" := by
  refine ⟨?_, ?_, ?_⟩ <;> rfl

/-- Claim C6 (amended): on every run in which the external URL builder
returns normally, the result's `url` is the URL built from the result's
`contactId`, including when `contactId` is 0; only the outer defensive catch
path (URL builder throwing) yields a result without `url`. -/
theorem url_always_from_contactId (cfg : PlanfixFieldIds) (args : SearchArgs)
    (cfs : List FilterType) (oracle : Oracle) (g : Int → String) :
    (planfixSearchContact cfg args cfs oracle (fun n => .ok (g n))).url =
      some (g (planfixSearchContact cfg args cfs oracle (fun n => .ok (g n))).contactId) := by
  unfold planfixSearchContact planfixSearchContactImpl
  rfl


/-! ## Claim C9: no identifying fields, no remote calls -/

lemma sanitizePhone_not_truthy {o : Option String}
    (h : ∀ p, o = some p → p = "" ∨ startsWithAt p = true ∨ phonePatternTest p = false) :
    ¬ truthyStr (sanitizePhone o) := by
  match o with
  | none => simp [sanitizePhone, truthyStr]
  | some p =>
    rcases h p rfl with h | h
    · subst h
      simp [sanitizePhone, truthyStr]
    · rw [sanitizePhone_invalid h]
      simp [truthyStr]

/-- Claim C9: with no email, no valid phone, no space-containing name or
translated name, no telegram and no custom filters, the cascade makes no
remote calls and the result has `contactId = 0` and `found = false`. -/
theorem empty_input_no_calls (cfg : PlanfixFieldIds) (args : SearchArgs)
    (oracle : Oracle) (getUrl : UrlBuilder)
    (hEmail : ¬ truthyStr args.email)
    (hPhone : ∀ p, args.phone = some p →
      p = "" ∨ startsWithAt p = true ∨ phonePatternTest p = false)
    (hName : ¬ (truthyStr args.name ∧ trimIncludesSpace (args.name.getD "") = true))
    (hNameT : ¬ (truthyStr args.nameTranslated ∧
      trimIncludesSpace (args.nameTranslated.getD "") = true))
    (hTg : ¬ truthyStr args.telegram) :
    (planfixSearchContact cfg args [] oracle getUrl).contactId = 0 ∧
    (planfixSearchContact cfg args [] oracle getUrl).found = false ∧
    searchCalls cfg args [] oracle getUrl = [] := by
  have hcasc : runCascade cfg args [] oracle =
      { k := 0, contactId := none, result := none, trace := [] } := by
    unfold runCascade runStages
    dsimp only
    rw [simpleStage_skip hEmail, simpleStage_skip (sanitizePhone_not_truthy hPhone),
      nameStage_skip hName, nameStage_skip hNameT, telegramStage_skip hTg]
    simp
  unfold planfixSearchContact searchCalls planfixSearchContactImpl
  rw [hcasc]
  dsimp only
  split <;> simp_all

/-- Claim C9 witness: the all-absent input makes no calls. -/
theorem empty_input_no_calls_witness :
    (planfixSearchContact { telegram := 131 } {} []
        (fun _ => .ok [{ id := 7 }]) (fun _ => .ok "u")).contactId = 0 ∧
    (planfixSearchContact { telegram := 131 } {} []
        (fun _ => .ok [{ id := 7 }]) (fun _ => .ok "u")).found = false ∧
    searchCalls { telegram := 131 } {} [] (fun _ => .ok [{ id := 7 }]) (fun _ => .ok "u") = [] :=
  empty_input_no_calls { telegram := 131 } {} (fun _ => .ok [{ id := 7 }]) (fun _ => .ok "u")
    (by decide) (by intro p hp; cases hp) (by decide) (by decide) (by decide)


/-! ## Claims C3 and C10: the telegram cross-check at the name stages -/

/-- Claim C3: when a name stage (or translated-name stage) matches a contact
whose extracted telegram disagrees with the supplied telegram (both
normalized), the match is reset (`contactId = null`, `result = undefined`),
so the cascade continues to the next stage; the remote call was still made. -/
theorem nameStage_telegram_mismatch_rejected (cfg : PlanfixFieldIds) (oracle : Oracle)
    (tg nm : String) (f : FilterType) (st : CascadeState) (c : ContactResponse)
    (l : List ContactResponse)
    (hcid : ¬ truthyId st.contactId)
    (htg : tg ≠ "") (hnm : nm ≠ "")
    (hsp : trimIncludesSpace nm = true)
    (hresp : oracle st.k = .ok (c :: l))
    (hid : 0 < c.id)
    (hex : extractTelegramFromContact cfg c ≠ "")
    (hne : extractTelegramFromContact cfg c ≠ tgNorm tg) :
    (nameStage cfg oracle (some tg) (some nm) (some f) st).contactId = none ∧
    (nameStage cfg oracle (some tg) (some nm) (some f) st).result = none ∧
    ¬ truthyId (nameStage cfg oracle (some tg) (some nm) (some f) st).contactId ∧
    (nameStage cfg oracle (some tg) (some nm) (some f) st).trace = st.trace ++ [f] := by
  have hnm' : truthyStr (some nm) := by simpa [truthyStr] using hnm
  have hr : searchWithFilter cfg (oracle st.k) =
      { contactId := c.id, firstName := c.name, lastName := c.lastname, found := true,
        telegram := some (extractTelegramFromContact cfg c) } := by
    rw [hresp]
    simp [searchWithFilter, hex]
  unfold nameStage
  rw [if_pos ⟨hcid, hnm', hsp⟩]
  dsimp only
  unfold doSearch
  rw [hr]
  dsimp only
  rw [if_pos ⟨by simpa [truthyStr] using htg, by simpa [idGtZero] using hid,
      by simpa [resultTelegram, truthyStr] using hex⟩]
  rw [if_pos (by simpa [resultTelegram] using fun h => hne h.symm)]
  exact ⟨rfl, rfl, by simp [truthyId], rfl⟩

/-- Claim C3 witness: a name match with record telegram `@Bob` is rejected
when the supplied telegram is `@Alice`. -/
theorem nameStage_telegram_mismatch_rejected_witness :
    (nameStage { telegram := 131 } (fun _ => .ok [{ id := 5, telegram := some "@Bob" }])
        (some "@Alice") (some "John Doe") (some { type := 4001, operator := "equal" })
        { k := 0, contactId := none, result := none, trace := [] }).contactId = none ∧
    (nameStage { telegram := 131 } (fun _ => .ok [{ id := 5, telegram := some "@Bob" }])
        (some "@Alice") (some "John Doe") (some { type := 4001, operator := "equal" })
        { k := 0, contactId := none, result := none, trace := [] }).result = none ∧
    ¬ truthyId (nameStage { telegram := 131 } (fun _ => .ok [{ id := 5, telegram := some "@Bob" }])
        (some "@Alice") (some "John Doe") (some { type := 4001, operator := "equal" })
        { k := 0, contactId := none, result := none, trace := [] }).contactId ∧
    (nameStage { telegram := 131 } (fun _ => .ok [{ id := 5, telegram := some "@Bob" }])
        (some "@Alice") (some "John Doe") (some { type := 4001, operator := "equal" })
        { k := 0, contactId := none, result := none, trace := [] }).trace =
      [] ++ [{ type := 4001, operator := "equal" }] :=
  nameStage_telegram_mismatch_rejected { telegram := 131 }
    (fun _ => .ok [{ id := 5, telegram := some "@Bob" }]) "@Alice" "John Doe"
    { type := 4001, operator := "equal" }
    { k := 0, contactId := none, result := none, trace := [] }
    { id := 5, telegram := some "@Bob" } [] (by decide) (by decide) (by decide)
    (by decide) rfl (by decide) (by decide) (by decide)

/-- Claim C10: when a name stage matches a contact with no extractable
telegram (extraction yields `""`, surfaced as `undefined`), the telegram
cross-check is skipped and the match stands, even though a telegram value was
supplied that the record does not carry. -/
theorem nameStage_no_extracted_telegram_accepted (cfg : PlanfixFieldIds) (oracle : Oracle)
    (tg nm : String) (f : FilterType) (st : CascadeState) (c : ContactResponse)
    (l : List ContactResponse)
    (hcid : ¬ truthyId st.contactId)
    (htg : tg ≠ "") (htgn : tgNorm tg ≠ "") (hnm : nm ≠ "")
    (hsp : trimIncludesSpace nm = true)
    (hresp : oracle st.k = .ok (c :: l))
    (hid : 0 < c.id)
    (hex : extractTelegramFromContact cfg c = "") :
    nameStage cfg oracle (some tg) (some nm) (some f) st = doSearch cfg oracle f st ∧
    (nameStage cfg oracle (some tg) (some nm) (some f) st).contactId = some c.id ∧
    truthyId (nameStage cfg oracle (some tg) (some nm) (some f) st).contactId := by
  have hnm' : truthyStr (some nm) := by simpa [truthyStr] using hnm
  have hr : searchWithFilter cfg (oracle st.k) =
      { contactId := c.id, firstName := c.name, lastName := c.lastname, found := true,
        telegram := none } := by
    rw [hresp]
    simp [searchWithFilter, hex]
  have hmain : nameStage cfg oracle (some tg) (some nm) (some f) st =
      doSearch cfg oracle f st := by
    unfold nameStage
    rw [if_pos ⟨hcid, hnm', hsp⟩]
    dsimp only
    rw [if_neg]
    intro hcheck
    have : truthyStr (resultTelegram (doSearch cfg oracle f st)) := hcheck.2.2
    rw [resultTelegram] at this
    simp [doSearch, hr, truthyStr] at this
  refine ⟨hmain, ?_, ?_⟩
  · rw [hmain]
    simp [doSearch, hr]
  · rw [hmain]
    simp [doSearch, hr, truthyId]
    intro h
    omega


/-- Claim C10 witness: supplied telegram `@Alice`, matched record with no
telegram data at all — the match is accepted. -/
theorem nameStage_no_extracted_telegram_accepted_witness :
    nameStage { telegram := 131 } (fun _ => .ok [{ id := 5 }])
        (some "@Alice") (some "John Doe") (some { type := 4001, operator := "equal" })
        { k := 0, contactId := none, result := none, trace := [] } =
      doSearch { telegram := 131 } (fun _ => .ok [{ id := 5 }])
        { type := 4001, operator := "equal" }
        { k := 0, contactId := none, result := none, trace := [] } ∧
    (nameStage { telegram := 131 } (fun _ => .ok [{ id := 5 }])
        (some "@Alice") (some "John Doe") (some { type := 4001, operator := "equal" })
        { k := 0, contactId := none, result := none, trace := [] }).contactId = some 5 ∧
    truthyId (nameStage { telegram := 131 } (fun _ => .ok [{ id := 5 }])
        (some "@Alice") (some "John Doe") (some { type := 4001, operator := "equal" })
        { k := 0, contactId := none, result := none, trace := [] }).contactId :=
  nameStage_no_extracted_telegram_accepted { telegram := 131 }
    (fun _ => .ok [{ id := 5 }]) "@Alice" "John Doe"
    { type := 4001, operator := "equal" }
    { k := 0, contactId := none, result := none, trace := [] }
    { id := 5 } [] (by decide) (by decide) (by decide) (by decide) (by decide)
    rfl (by decide) (by decide)


/-! ## Claim C4: the five telegram variants, in order, first success wins -/

lemma mkTgFilter_eq {cfg : PlanfixFieldIds}
    (hcfg : cfg.telegramCustom ≠ 0 ∨ cfg.telegram ≠ 0) (v : String) :
    mkTgFilter cfg v = some (tgFilterOf cfg v) := by
  unfold mkTgFilter tgFilterOf
  by_cases hc : cfg.telegramCustom ≠ 0
  · simp [hc]
  · have ht : cfg.telegram ≠ 0 := hcfg.resolve_left hc
    simp [hc, ht]

lemma searchWithFilter_cid_no_contact {cfg : PlanfixFieldIds} {r : PFResponse}
    (h : respHasContact r = false) : (searchWithFilter cfg r).contactId = 0 := by
  match r with
  | .error e => rfl
  | .ok [] => rfl
  | .ok (c :: l) => simp [respHasContact] at h

lemma searchWithFilter_cid_has_contact (cfg : PlanfixFieldIds) {r : PFResponse}
    (h : respHasContact r = true) :
    ∃ c l, r = .ok (c :: l) ∧ (searchWithFilter cfg r).contactId = c.id := by
  match r with
  | .error e => simp [respHasContact] at h
  | .ok [] => simp [respHasContact] at h
  | .ok (c :: l) => exact ⟨c, l, rfl, rfl⟩

lemma foldl_tgTry_stuck {cfg : PlanfixFieldIds} {oracle : Oracle} {st : CascadeState}
    (h : truthyId st.contactId) (fs : List FilterType) :
    fs.foldl (fun s f => tgTry cfg oracle (some f) s) st = st := by
  induction fs with
  | nil => rfl
  | cons f rest ih =>
    have : tgTry cfg oracle (some f) st = st := by
      unfold tgTry
      rw [if_neg (not_not_intro h)]
    simp only [List.foldl_cons, this, ih]

lemma tryChain_eq_foldl (cfg : PlanfixFieldIds) (oracle : Oracle) (fs : List FilterType)
    (st : CascadeState) :
    tryChain cfg oracle fs st = fs.foldl (fun s f => tgTry cfg oracle (some f) s) st := by
  induction fs generalizing st with
  | nil => rfl
  | cons f rest ih =>
    by_cases h : truthyId st.contactId
    · unfold tryChain
      rw [if_neg (not_not_intro h), List.foldl_cons]
      have htry : tgTry cfg oracle (some f) st = st := by
        unfold tgTry
        rw [if_neg (not_not_intro h)]
      rw [htry, foldl_tgTry_stuck h]
    · unfold tryChain
      rw [if_pos h, List.foldl_cons, ih]
      have htry : tgTry cfg oracle (some f) st = doSearch cfg oracle f st := by
        unfold tgTry
        rw [if_pos h]
      rw [htry]

lemma tryChain_trace (cfg : PlanfixFieldIds) {oracle : Oracle}
    (hpos : ∀ k l c, oracle k = Except.ok l → c ∈ l → 0 < c.id) :
    ∀ (fs : List FilterType) (st : CascadeState), ¬ truthyId st.contactId →
      (tryChain cfg oracle fs st).trace =
        st.trace ++ fs.take (stopCount oracle st.k fs.length)
  | [], st, h => by simp [tryChain, stopCount]
  | f :: rest, st, h => by
    unfold tryChain
    rw [if_pos h]
    by_cases hR : respHasContact (oracle st.k)
    · obtain ⟨c, l, hr, hcid⟩ := searchWithFilter_cid_has_contact cfg hR
      have hpc : 0 < c.id := hpos st.k (c :: l) c hr (by simp)
      have hstuck : truthyId (doSearch cfg oracle f st).contactId := by
        simp only [doSearch, truthyId, hcid]
        simpa using (by omega : c.id ≠ 0)
      have : tryChain cfg oracle rest (doSearch cfg oracle f st) =
          doSearch cfg oracle f st := by
        cases rest with
        | nil => rfl
        | cons g r =>
          unfold tryChain
          rw [if_neg (not_not_intro hstuck)]
      rw [this]
      simp [doSearch, stopCount, hR]
    · have hz : (searchWithFilter cfg (oracle st.k)).contactId = 0 :=
        searchWithFilter_cid_no_contact (by simpa using hR)
      have hns : ¬ truthyId (doSearch cfg oracle f st).contactId := by
        simp [doSearch, truthyId, hz]
      have ih := tryChain_trace cfg hpos rest (doSearch cfg oracle f st) hns
      rw [ih]
      have hk : (doSearch cfg oracle f st).k = st.k + 1 := rfl
      have htr : (doSearch cfg oracle f st).trace = st.trace ++ [f] := rfl
      rw [hk, htr]
      simp only [List.length_cons, stopCount, hR, if_false, Bool.false_eq_true,
        List.append_assoc, List.singleton_append]
      rw [Nat.add_comm 1 (stopCount oracle (st.k + 1) rest.length)]
      simp [List.take_succ_cons]


lemma telegramStage_eq_tryChain (cfg : PlanfixFieldIds) (oracle : Oracle)
    (args : SearchArgs) (ph : Option String) (st : CascadeState) (t : String)
    (htg : args.telegram = some t) (ht : t ≠ "")
    (hcfg : cfg.telegramCustom ≠ 0 ∨ cfg.telegram ≠ 0)
    (hcid : ¬ truthyId st.contactId) :
    telegramStage cfg oracle (buildFilters cfg args ph) args.telegram st =
      tryChain cfg oracle ((tgVariantValues t).map (tgFilterOf cfg)) st := by
  have h5 : truthyStr (some t) := by simpa [truthyStr] using ht
  have htt : truthyStr args.telegram := by rw [htg]; exact h5
  unfold telegramStage
  rw [if_pos ⟨hcid, htt⟩]
  simp only [buildFilters, htg, Option.getD_some, mkTgFilter_eq hcfg, h5, if_true]
  rw [tryChain_eq_foldl]
  simp only [tgVariantValues, List.map_cons, List.map_nil, List.foldl_cons, List.foldl_nil]
  have hfirst : tgTry cfg oracle (some (tgFilterOf cfg (tgNorm t))) st =
      doSearch cfg oracle (tgFilterOf cfg (tgNorm t)) st := by
    unfold tgTry
    rw [if_pos hcid]
  rw [hfirst]


/-- Claim C4: with a telegram supplied, a telegram field configured and the
cascade not yet successful, the telegram stage sends the five variant filters
in source order — lowercase `@`-stripped, lowercase with `@`, original case
`@`-stripped, original case with `@` ensured, then `https://t.me/<handle>`
with case preserved — stopping after the first response that contains a
contact (all five when none does).  Remote contact ids are assumed
positive. -/
theorem telegram_variant_order (cfg : PlanfixFieldIds) (oracle : Oracle)
    (args : SearchArgs) (ph : Option String) (st : CascadeState) (t : String)
    (htg : args.telegram = some t) (ht : t ≠ "")
    (hcfg : cfg.telegramCustom ≠ 0 ∨ cfg.telegram ≠ 0)
    (hcid : ¬ truthyId st.contactId)
    (hpos : ∀ k l c, oracle k = Except.ok l → c ∈ l → 0 < c.id) :
    (telegramStage cfg oracle (buildFilters cfg args ph) args.telegram st).trace =
      st.trace ++
        ((tgVariantValues t).map (tgFilterOf cfg)).take (stopCount oracle st.k 5) := by
  rw [telegramStage_eq_tryChain cfg oracle args ph st t htg ht hcfg hcid]
  have := tryChain_trace cfg hpos ((tgVariantValues t).map (tgFilterOf cfg)) st hcid
  simpa [tgVariantValues] using this

/-- Claim C4 witness: `telegram: "SomeUser"`, built-in field configured, first
four responses empty — all five variants are sent, the URL variant preserving
case, and the stage stops on the fifth. -/
theorem telegram_variant_order_witness :
    (telegramStage { telegram := 131 }
        (fun k => if k = 4 then Except.ok [{ id := 42 }] else Except.ok [])
        (buildFilters { telegram := 131 } { telegram := some "SomeUser" } none)
        ({ telegram := some "SomeUser" } : SearchArgs).telegram
        { k := 0, contactId := none, result := none, trace := [] }).trace =
      [{ type := 4226, operator := "equal", value := some (.str "someuser") },
       { type := 4226, operator := "equal", value := some (.str "@someuser") },
       { type := 4226, operator := "equal", value := some (.str "SomeUser") },
       { type := 4226, operator := "equal", value := some (.str "@SomeUser") },
       { type := 4226, operator := "equal", value := some (.str "https://t.me/SomeUser") }] :=
  (telegram_variant_order { telegram := 131 }
      (fun k => if k = 4 then Except.ok [{ id := 42 }] else Except.ok [])
      { telegram := some "SomeUser" } none
      { k := 0, contactId := none, result := none, trace := [] } "SomeUser"
      rfl (by decide) (Or.inr (by decide)) (by decide)
      (by
        intro k l c h hm
        dsimp only at h
        by_cases hk : k = 4
        · rw [if_pos hk] at h
          cases h
          rw [List.mem_singleton] at hm
          subst hm
          decide
        · rw [if_neg hk] at h
          cases h
          cases hm)).trans (by decide)


/-! ## Claim C5: per-stage errors are absorbed and the cascade proceeds -/

lemma scrub_search (cfg : PlanfixFieldIds) (r : PFResponse) :
    scrubErr (searchWithFilter cfg r) = scrubErr (searchWithFilter cfg (deErr r)) := by
  cases r <;> rfl

lemma scrub_eq_contactId {a b : SearchResult} (h : scrubErr a = scrubErr b) :
    a.contactId = b.contactId := by
  have h2 := congrArg SearchResult.contactId h
  simpa [scrubErr] using h2

lemma mapScrub_bind {α : Type} {o1 o2 : Option SearchResult}
    (h : o1.map scrubErr = o2.map scrubErr) (g : SearchResult → Option α)
    (hg : ∀ a b, scrubErr a = scrubErr b → g a = g b) :
    o1.bind g = o2.bind g := by
  cases o1 with
  | none =>
    cases o2 with
    | none => rfl
    | some b => simp [scrubErr] at h
  | some a =>
    cases o2 with
    | none => simp [scrubErr] at h
    | some b =>
      have h' : some (scrubErr a) = some (scrubErr b) := h
      injection h' with h''
      show g a = g b
      exact hg a b h''

lemma doSearch_equiv (cfg : PlanfixFieldIds) (oracle : Oracle) (f : FilterType)
    {s1 s2 : CascadeState} (h : stEquiv s1 s2) :
    stEquiv (doSearch cfg oracle f s1) (doSearch cfg (fun k => deErr (oracle k)) f s2) := by
  obtain ⟨hk, hc, ht, hr⟩ := h
  refine ⟨?_, ?_, ?_, ?_⟩
  · show s1.k + 1 = s2.k + 1
    rw [hk]
  · show some (searchWithFilter cfg (oracle s1.k)).contactId =
      some (searchWithFilter cfg (deErr (oracle s2.k))).contactId
    rw [hk]
    exact congrArg some (scrub_eq_contactId (scrub_search cfg (oracle s2.k)))
  · show s1.trace ++ [f] = s2.trace ++ [f]
    rw [ht]
  · show some (scrubErr (searchWithFilter cfg (oracle s1.k))) =
      some (scrubErr (searchWithFilter cfg (deErr (oracle s2.k))))
    rw [hk]
    exact congrArg some (scrub_search cfg (oracle s2.k))

lemma simpleStage_equiv (cfg : PlanfixFieldIds) (oracle : Oracle) (cond : Prop)
    [Decidable cond] (f : Option FilterType) {s1 s2 : CascadeState} (h : stEquiv s1 s2) :
    stEquiv (simpleStage cfg oracle cond f s1)
      (simpleStage cfg (fun k => deErr (oracle k)) cond f s2) := by
  have hc := h.2.1
  unfold simpleStage
  by_cases hg : (¬ truthyId s2.contactId) ∧ cond
  · rw [if_pos (by rw [hc]; exact hg), if_pos hg]
    cases f with
    | some ff => exact doSearch_equiv cfg oracle ff h
    | none => exact h
  · rw [if_neg (by rw [hc]; exact hg), if_neg hg]
    exact h

lemma resultTelegram_equiv {s1 s2 : CascadeState}
    (h : s1.result.map scrubErr = s2.result.map scrubErr) :
    resultTelegram s1 = resultTelegram s2 :=
  mapScrub_bind h (fun r => r.telegram)
    (fun a b hab => by simpa [scrubErr] using congrArg SearchResult.telegram hab)

lemma nameStage_equiv (cfg : PlanfixFieldIds) (oracle : Oracle) (tg nv : Option String)
    (f : Option FilterType) {s1 s2 : CascadeState} (h : stEquiv s1 s2) :
    stEquiv (nameStage cfg oracle tg nv f s1)
      (nameStage cfg (fun k => deErr (oracle k)) tg nv f s2) := by
  have hc := h.2.1
  unfold nameStage
  by_cases hg : (¬ truthyId s2.contactId) ∧ truthyStr nv ∧
      trimIncludesSpace (nv.getD "") = true
  · rw [if_pos (by rw [hc]; exact hg), if_pos hg]
    cases f with
    | none => exact h
    | some ff =>
      dsimp only
      have hd := doSearch_equiv cfg oracle ff h
      have hc' := hd.2.1
      have hrt : resultTelegram (doSearch cfg oracle ff s1) =
          resultTelegram (doSearch cfg (fun k => deErr (oracle k)) ff s2) :=
        resultTelegram_equiv hd.2.2.2
      by_cases hg2 : truthyStr tg ∧
          idGtZero (doSearch cfg (fun k => deErr (oracle k)) ff s2).contactId ∧
          truthyStr (resultTelegram (doSearch cfg (fun k => deErr (oracle k)) ff s2))
      · rw [if_pos (by rw [hc', hrt]; exact hg2), if_pos hg2]
        by_cases hne : tgNorm (tg.getD "") ≠
            (resultTelegram (doSearch cfg (fun k => deErr (oracle k)) ff s2)).getD ""
        · rw [if_pos (by rw [hrt]; exact hne), if_pos hne]
          exact ⟨hd.1, rfl, hd.2.2.1, rfl⟩
        · rw [if_neg (by rw [hrt]; exact hne), if_neg hne]
          exact hd
      · rw [if_neg (by rw [hc', hrt]; exact hg2), if_neg hg2]
        exact hd
  · rw [if_neg (by rw [hc]; exact hg), if_neg hg]
    exact h


lemma tgTry_equiv (cfg : PlanfixFieldIds) (oracle : Oracle) (f : Option FilterType)
    {s1 s2 : CascadeState} (h : stEquiv s1 s2) :
    stEquiv (tgTry cfg oracle f s1) (tgTry cfg (fun k => deErr (oracle k)) f s2) := by
  have hc := h.2.1
  unfold tgTry
  by_cases hg : ¬ truthyId s2.contactId
  · rw [if_pos (by rw [hc]; exact hg), if_pos hg]
    cases f with
    | some ff => exact doSearch_equiv cfg oracle ff h
    | none => exact h
  · rw [if_neg (by rw [hc]; exact hg), if_neg hg]
    exact h

lemma telegramStage_equiv (cfg : PlanfixFieldIds) (oracle : Oracle) (fl : Filters)
    (tg : Option String) {s1 s2 : CascadeState} (h : stEquiv s1 s2) :
    stEquiv (telegramStage cfg oracle fl tg s1)
      (telegramStage cfg (fun k => deErr (oracle k)) fl tg s2) := by
  have hc := h.2.1
  unfold telegramStage
  by_cases hg : (¬ truthyId s2.contactId) ∧ truthyStr tg
  · rw [if_pos (by rw [hc]; exact hg), if_pos hg]
    have ha : stEquiv
        (match fl.byTelegram with
          | some ff => doSearch cfg oracle ff s1
          | none => s1)
        (match fl.byTelegram with
          | some ff => doSearch cfg (fun k => deErr (oracle k)) ff s2
          | none => s2) := by
      cases fl.byTelegram with
      | some ff => exact doSearch_equiv cfg oracle ff h
      | none => exact h
    exact tgTry_equiv cfg oracle fl.byTelegramUrl
      (tgTry_equiv cfg oracle fl.byTelegramOriginalCaseWithAt
        (tgTry_equiv cfg oracle fl.byTelegramOriginalCase
          (tgTry_equiv cfg oracle fl.byTelegramWithAt ha)))
  · rw [if_neg (by rw [hc]; exact hg), if_neg hg]
    exact h

lemma customLoop_equiv (cfg : PlanfixFieldIds) (oracle : Oracle) (l : List FilterType) :
    ∀ {s1 s2 : CascadeState}, stEquiv s1 s2 →
      stEquiv (customLoop cfg oracle l s1) (customLoop cfg (fun k => deErr (oracle k)) l s2) := by
  induction l with
  | nil => intro s1 s2 h; exact h
  | cons cf rest ih =>
    intro s1 s2 h
    have hc := h.2.1
    unfold customLoop
    by_cases hg : truthyId s2.contactId
    · rw [if_pos (by rw [hc]; exact hg), if_pos hg]
      exact h
    · rw [if_neg (by rw [hc]; exact hg), if_neg hg]
      exact ih (doSearch_equiv cfg oracle cf h)

lemma runStages_equiv (cfg : PlanfixFieldIds) (oracle : Oracle)
    (e nv nt tg ph : Option String) (fl : Filters) (cfs : List FilterType) :
    stEquiv (runStages cfg oracle e nv nt tg ph fl cfs)
      (runStages cfg (fun k => deErr (oracle k)) e nv nt tg ph fl cfs) := by
  unfold runStages
  dsimp only
  have h0 : stEquiv { k := 0, contactId := none, result := none, trace := [] }
      { k := 0, contactId := none, result := none, trace := [] } := ⟨rfl, rfl, rfl, rfl⟩
  have h5 := telegramStage_equiv cfg oracle fl tg
    (nameStage_equiv cfg oracle tg nt fl.byNameTranslated
      (nameStage_equiv cfg oracle tg nv fl.byName
        (simpleStage_equiv cfg oracle (truthyStr ph) fl.byPhone
          (simpleStage_equiv cfg oracle (truthyStr e) fl.byEmail h0))))
  have hc := h5.2.1
  by_cases hg : (¬ truthyId (telegramStage cfg (fun k => deErr (oracle k)) fl tg
      (nameStage cfg (fun k => deErr (oracle k)) tg nt fl.byNameTranslated
        (nameStage cfg (fun k => deErr (oracle k)) tg nv fl.byName
          (simpleStage cfg (fun k => deErr (oracle k)) (truthyStr ph) fl.byPhone
            (simpleStage cfg (fun k => deErr (oracle k)) (truthyStr e) fl.byEmail
              { k := 0, contactId := none, result := none, trace := [] }))))).contactId) ∧
      cfs ≠ []
  · rw [if_pos (by rw [hc]; exact hg), if_pos hg]
    exact customLoop_equiv cfg oracle cfs h5
  · rw [if_neg (by rw [hc]; exact hg), if_neg hg]
    exact h5

/-- Claim C5: a remote-call exception at any stage is caught and behaves,
for the rest of the run, exactly like a response with no contacts: the
cascade proceeds to the next applicable stage and the final result (which is
always a well-formed `SearchResult`) and call sequence are the ones obtained
when every thrown response is replaced by an empty one. -/
theorem cascade_error_isolated (cfg : PlanfixFieldIds) (args : SearchArgs)
    (cfs : List FilterType) (oracle : Oracle) (getUrl : UrlBuilder) :
    planfixSearchContactImpl cfg args cfs oracle getUrl =
      planfixSearchContactImpl cfg args cfs (fun k => deErr (oracle k)) getUrl := by
  have h : stEquiv (runCascade cfg args cfs oracle)
      (runCascade cfg args cfs (fun k => deErr (oracle k))) := by
    unfold runCascade
    exact runStages_equiv cfg oracle args.email args.name args.nameTranslated
      args.telegram (sanitizePhone args.phone)
      (buildFilters cfg args (sanitizePhone args.phone)) cfs
  obtain ⟨hk, hc, ht, hr⟩ := h
  have hfn := mapScrub_bind hr (fun r => r.firstName)
    (fun a b hab => by simpa [scrubErr] using congrArg SearchResult.firstName hab)
  have hln := mapScrub_bind hr (fun r => r.lastName)
    (fun a b hab => by simpa [scrubErr] using congrArg SearchResult.lastName hab)
  unfold planfixSearchContactImpl
  dsimp only
  rw [hc, ht, hfn, hln]


/-! ## Claim C7: invalid phones are silently dropped -/

lemma telegramStage_congr {fl1 fl2 : Filters} (cfg : PlanfixFieldIds) (oracle : Oracle)
    (tg : Option String)
    (h1 : fl1.byTelegram = fl2.byTelegram)
    (h2 : fl1.byTelegramWithAt = fl2.byTelegramWithAt)
    (h3 : fl1.byTelegramOriginalCase = fl2.byTelegramOriginalCase)
    (h4 : fl1.byTelegramOriginalCaseWithAt = fl2.byTelegramOriginalCaseWithAt)
    (h5 : fl1.byTelegramUrl = fl2.byTelegramUrl) (st : CascadeState) :
    telegramStage cfg oracle fl1 tg st = telegramStage cfg oracle fl2 tg st := by
  unfold telegramStage
  rw [h1, h2, h3, h4, h5]

lemma runStages_phone_irrelevant (cfg : PlanfixFieldIds) (oracle : Oracle)
    (e nv nt tg ph1 ph2 : Option String) {fl1 fl2 : Filters} (cfs : List FilterType)
    (hp1 : ¬ truthyStr ph1) (hp2 : ¬ truthyStr ph2)
    (hE : fl1.byEmail = fl2.byEmail) (hN : fl1.byName = fl2.byName)
    (hNT : fl1.byNameTranslated = fl2.byNameTranslated)
    (hT : fl1.byTelegram = fl2.byTelegram)
    (hTA : fl1.byTelegramWithAt = fl2.byTelegramWithAt)
    (hTO : fl1.byTelegramOriginalCase = fl2.byTelegramOriginalCase)
    (hTOA : fl1.byTelegramOriginalCaseWithAt = fl2.byTelegramOriginalCaseWithAt)
    (hTU : fl1.byTelegramUrl = fl2.byTelegramUrl) :
    runStages cfg oracle e nv nt tg ph1 fl1 cfs =
      runStages cfg oracle e nv nt tg ph2 fl2 cfs := by
  unfold runStages
  dsimp only
  rw [simpleStage_skip hp1, simpleStage_skip hp2, hE, hN, hNT,
    telegramStage_congr cfg oracle tg hT hTA hTO hTOA hTU]

lemma runCascade_invalid_phone (cfg : PlanfixFieldIds) (args : SearchArgs)
    (cfs : List FilterType) (oracle : Oracle) (p : String)
    (h : startsWithAt p = true ∨ phonePatternTest p = false) :
    runCascade cfg { args with phone := some p } cfs oracle =
      runCascade cfg { args with phone := none } cfs oracle := by
  unfold runCascade
  dsimp only
  rw [sanitizePhone_invalid h]
  exact runStages_phone_irrelevant cfg oracle args.email args.name args.nameTranslated
    args.telegram (some "") none cfs (by simp [truthyStr]) (by simp [truthyStr])
    rfl rfl rfl rfl rfl rfl rfl rfl

lemma searchCalls_eq_trace (cfg : PlanfixFieldIds) (args : SearchArgs)
    (cfs : List FilterType) (oracle : Oracle) (getUrl : UrlBuilder) :
    searchCalls cfg args cfs oracle getUrl = (runCascade cfg args cfs oracle).trace := by
  unfold searchCalls planfixSearchContactImpl
  dsimp only
  split <;> rfl

lemma doSearch_trace_mem {cfg : PlanfixFieldIds} {oracle : Oracle} {f x : FilterType}
    {st : CascadeState} (hx : x ∈ (doSearch cfg oracle f st).trace) :
    x ∈ st.trace ∨ x = f := by
  simpa [doSearch] using hx

lemma simpleStage_trace_mem {cfg : PlanfixFieldIds} {oracle : Oracle} {cond : Prop}
    [Decidable cond] {f : Option FilterType} {x : FilterType} {st : CascadeState}
    (hx : x ∈ (simpleStage cfg oracle cond f st).trace) :
    x ∈ st.trace ∨ (f = some x ∧ cond) := by
  unfold simpleStage at hx
  by_cases hg : (¬ truthyId st.contactId) ∧ cond
  · rw [if_pos hg] at hx
    cases hf : f with
    | some ff =>
      rw [hf] at hx
      rcases doSearch_trace_mem hx with h | h
      · exact Or.inl h
      · exact Or.inr ⟨by rw [h], hg.2⟩
    | none =>
      rw [hf] at hx
      exact Or.inl hx
  · rw [if_neg hg] at hx
    exact Or.inl hx

lemma nameStage_trace_mem {cfg : PlanfixFieldIds} {oracle : Oracle} {tg nv : Option String}
    {f : Option FilterType} {x : FilterType} {st : CascadeState}
    (hx : x ∈ (nameStage cfg oracle tg nv f st).trace) :
    x ∈ st.trace ∨ f = some x := by
  unfold nameStage at hx
  by_cases hg : (¬ truthyId st.contactId) ∧ truthyStr nv ∧ trimIncludesSpace (nv.getD "") = true
  · rw [if_pos hg] at hx
    cases hf : f with
    | some ff =>
      rw [hf] at hx
      dsimp only at hx
      have hx' : x ∈ (doSearch cfg oracle ff st).trace := by
        by_cases hg2 : truthyStr tg ∧ idGtZero (doSearch cfg oracle ff st).contactId ∧
            truthyStr (resultTelegram (doSearch cfg oracle ff st))
        · rw [if_pos hg2] at hx
          by_cases hne : tgNorm (tg.getD "") ≠
              (resultTelegram (doSearch cfg oracle ff st)).getD ""
          · rwa [if_pos hne] at hx
          · rwa [if_neg hne] at hx
        · rwa [if_neg hg2] at hx
      rcases doSearch_trace_mem hx' with h | h
      · exact Or.inl h
      · exact Or.inr (by rw [h])
    | none =>
      rw [hf] at hx
      exact Or.inl hx
  · rw [if_neg hg] at hx
    exact Or.inl hx

lemma tgTry_trace_mem {cfg : PlanfixFieldIds} {oracle : Oracle} {f : Option FilterType}
    {x : FilterType} {st : CascadeState} (hx : x ∈ (tgTry cfg oracle f st).trace) :
    x ∈ st.trace ∨ f = some x := by
  unfold tgTry at hx
  by_cases hg : ¬ truthyId st.contactId
  · rw [if_pos hg] at hx
    cases hf : f with
    | some ff =>
      rw [hf] at hx
      rcases doSearch_trace_mem hx with h | h
      · exact Or.inl h
      · exact Or.inr (by rw [h])
    | none =>
      rw [hf] at hx
      exact Or.inl hx
  · rw [if_neg hg] at hx
    exact Or.inl hx

lemma telegramStage_trace_mem {cfg : PlanfixFieldIds} {oracle : Oracle} {fl : Filters}
    {tg : Option String} {x : FilterType} {st : CascadeState}
    (hx : x ∈ (telegramStage cfg oracle fl tg st).trace) :
    x ∈ st.trace ∨ fl.byTelegram = some x ∨ fl.byTelegramWithAt = some x ∨
      fl.byTelegramOriginalCase = some x ∨ fl.byTelegramOriginalCaseWithAt = some x ∨
      fl.byTelegramUrl = some x := by
  unfold telegramStage at hx
  by_cases hg : (¬ truthyId st.contactId) ∧ truthyStr tg
  · rw [if_pos hg] at hx
    dsimp only at hx
    rcases tgTry_trace_mem hx with hx | h
    rotate_left
    · exact Or.inr (Or.inr (Or.inr (Or.inr (Or.inr h))))
    rcases tgTry_trace_mem hx with hx | h
    rotate_left
    · exact Or.inr (Or.inr (Or.inr (Or.inr (Or.inl h))))
    rcases tgTry_trace_mem hx with hx | h
    rotate_left
    · exact Or.inr (Or.inr (Or.inr (Or.inl h)))
    rcases tgTry_trace_mem hx with hx | h
    rotate_left
    · exact Or.inr (Or.inr (Or.inl h))
    cases hf : fl.byTelegram with
    | some ff =>
      rw [hf] at hx
      rcases doSearch_trace_mem hx with h | h
      · exact Or.inl h
      · exact Or.inr (Or.inl (by rw [h]))
    | none =>
      rw [hf] at hx
      exact Or.inl hx
  · rw [if_neg hg] at hx
    exact Or.inl hx

lemma customLoop_trace_mem {cfg : PlanfixFieldIds} {oracle : Oracle} {x : FilterType} :
    ∀ {l : List FilterType} {st : CascadeState},
      x ∈ (customLoop cfg oracle l st).trace → x ∈ st.trace ∨ x ∈ l := by
  intro l
  induction l with
  | nil => intro st hx; exact Or.inl hx
  | cons cf rest ih =>
    intro st hx
    unfold customLoop at hx
    by_cases hg : truthyId st.contactId
    · rw [if_pos hg] at hx
      exact Or.inl hx
    · rw [if_neg hg] at hx
      rcases ih hx with hx' | hx'
      · rcases doSearch_trace_mem hx' with h | h
        · exact Or.inl h
        · exact Or.inr (by simp [h])
      · exact Or.inr (by simp [hx'])

lemma runStages_trace_mem {cfg : PlanfixFieldIds} {oracle : Oracle}
    {e nv nt tg ph : Option String} {fl : Filters} {cfs : List FilterType} {x : FilterType}
    (hx : x ∈ (runStages cfg oracle e nv nt tg ph fl cfs).trace) :
    (fl.byEmail = some x ∧ truthyStr e) ∨ (fl.byPhone = some x ∧ truthyStr ph) ∨
      fl.byName = some x ∨ fl.byNameTranslated = some x ∨
      fl.byTelegram = some x ∨ fl.byTelegramWithAt = some x ∨
      fl.byTelegramOriginalCase = some x ∨ fl.byTelegramOriginalCaseWithAt = some x ∨
      fl.byTelegramUrl = some x ∨ x ∈ cfs := by
  unfold runStages at hx
  dsimp only at hx
  have hx5 : x ∈ (telegramStage cfg oracle fl tg
      (nameStage cfg oracle tg nt fl.byNameTranslated
        (nameStage cfg oracle tg nv fl.byName
          (simpleStage cfg oracle (truthyStr ph) fl.byPhone
            (simpleStage cfg oracle (truthyStr e) fl.byEmail
              { k := 0, contactId := none, result := none, trace := [] }))))).trace ∨
      x ∈ cfs := by
    split at hx
    · rcases customLoop_trace_mem hx with h | h
      · exact Or.inl h
      · exact Or.inr h
    · exact Or.inl hx
  rcases hx5 with hx5 | hcf
  rotate_left
  · exact Or.inr (Or.inr (Or.inr (Or.inr (Or.inr (Or.inr (Or.inr (Or.inr (Or.inr hcf))))))))
  rcases telegramStage_trace_mem hx5 with hx4 | h
  rotate_left
  · refine Or.inr (Or.inr (Or.inr (Or.inr ?_)))
    tauto
  rcases nameStage_trace_mem hx4 with hx3 | h
  rotate_left
  · exact Or.inr (Or.inr (Or.inr (Or.inl h)))
  rcases nameStage_trace_mem hx3 with hx2 | h
  rotate_left
  · exact Or.inr (Or.inr (Or.inl h))
  rcases simpleStage_trace_mem hx2 with hx1 | h
  rotate_left
  · exact Or.inr (Or.inl h)
  rcases simpleStage_trace_mem hx1 with hx0 | h
  rotate_left
  · exact Or.inl h
  simp at hx0


lemma mkTgFilter_type {cfg : PlanfixFieldIds} {v : String} {x : FilterType}
    (h : mkTgFilter cfg v = some x) : x.type = 4101 ∨ x.type = 4226 := by
  unfold mkTgFilter at h
  split_ifs at h
  · injection h with h'
    rw [← h']
    left
    rfl
  · injection h with h'
    rw [← h']
    right
    rfl

lemma tgOptFilter_not_4003 {cfg : PlanfixFieldIds} {o : Option String} {v : String}
    {x : FilterType} (h : (if truthyStr o then mkTgFilter cfg v else none) = some x) :
    x.type ≠ 4003 := by
  by_cases ho : truthyStr o
  · rw [if_pos ho] at h
    rcases mkTgFilter_type h with h' | h' <;> rw [h'] <;> decide
  · rw [if_neg ho] at h
    simp at h

/-- Claim C7: a phone that starts with `@` or fails the pattern
`^[+\d\s\-()]{5,}$` is treated exactly as an absent phone (same result,
same calls, no error), and no type-4003 (phone) filter is ever sent other
than ones the custom-filter extender itself supplied. -/
theorem invalid_phone_ignored (cfg : PlanfixFieldIds) (args : SearchArgs)
    (cfs : List FilterType) (oracle : Oracle) (getUrl : UrlBuilder) (p : String)
    (h : startsWithAt p = true ∨ phonePatternTest p = false) :
    planfixSearchContactImpl cfg { args with phone := some p } cfs oracle getUrl =
      planfixSearchContactImpl cfg { args with phone := none } cfs oracle getUrl ∧
    ∀ x ∈ searchCalls cfg { args with phone := some p } cfs oracle getUrl,
      x.type = 4003 → x ∈ cfs := by
  constructor
  · unfold planfixSearchContactImpl
    rw [runCascade_invalid_phone cfg args cfs oracle p h]
  · intro x hx h4003
    rw [searchCalls_eq_trace] at hx
    unfold runCascade at hx
    rw [sanitizePhone_invalid h] at hx
    rcases runStages_trace_mem hx with ⟨hE, _⟩ | ⟨_, hph⟩ | hN | hNT | hT | hTA | hTO |
      hTOA | hTU | hcf
    · simp only [buildFilters] at hE
      injection hE with hE
      rw [← hE] at h4003
      simp at h4003
    · exact absurd hph (by simp [truthyStr])
    · simp only [buildFilters] at hN
      injection hN with hN
      rw [← hN] at h4003
      simp at h4003
    · simp only [buildFilters] at hNT
      injection hNT with hNT
      rw [← hNT] at h4003
      simp at h4003
    · simp only [buildFilters] at hT
      exact absurd h4003 (tgOptFilter_not_4003 hT)
    · simp only [buildFilters] at hTA
      exact absurd h4003 (tgOptFilter_not_4003 hTA)
    · simp only [buildFilters] at hTO
      exact absurd h4003 (tgOptFilter_not_4003 hTO)
    · simp only [buildFilters] at hTOA
      exact absurd h4003 (tgOptFilter_not_4003 hTOA)
    · simp only [buildFilters] at hTU
      exact absurd h4003 (tgOptFilter_not_4003 hTU)
    · exact hcf

/-- Claim C7 witness: `phone: "@foo"` behaves as no phone at all. -/
theorem invalid_phone_ignored_witness :
    (startsWithAt "@foo" = true ∨ phonePatternTest "@foo" = false) ∧
    planfixSearchContactImpl { telegram := 131 }
        { phone := some "@foo", telegram := some "foo" } []
        (fun _ => Except.ok [{ id := 2, name := some "Foo", lastname := some "Bar" }])
        (fun _ => Except.ok "u") =
      planfixSearchContactImpl { telegram := 131 }
        { phone := none, telegram := some "foo" } []
        (fun _ => Except.ok [{ id := 2, name := some "Foo", lastname := some "Bar" }])
        (fun _ => Except.ok "u") ∧
    ∀ x ∈ searchCalls { telegram := 131 }
        { phone := some "@foo", telegram := some "foo" } []
        (fun _ => Except.ok [{ id := 2, name := some "Foo", lastname := some "Bar" }])
        (fun _ => Except.ok "u"), x.type = 4003 → x ∈ ([] : List FilterType) :=
  ⟨Or.inl (by decide),
    (invalid_phone_ignored { telegram := 131 } { telegram := some "foo" } []
      (fun _ => Except.ok [{ id := 2, name := some "Foo", lastname := some "Bar" }])
      (fun _ => Except.ok "u") "@foo" (Or.inl (by decide))).1,
    (invalid_phone_ignored { telegram := 131 } { telegram := some "foo" } []
      (fun _ => Except.ok [{ id := 2, name := some "Foo", lastname := some "Bar" }])
      (fun _ => Except.ok "u") "@foo" (Or.inl (by decide))).2⟩


/-! ## Claim C8: the whitespace heuristic on the name stages -/

lemma runStages_name_irrelevant (cfg : PlanfixFieldIds) (oracle : Oracle)
    (e nv1 nv2 nt tg ph : Option String) {fl1 fl2 : Filters} (cfs : List FilterType)
    (h1 : ¬ (truthyStr nv1 ∧ trimIncludesSpace (nv1.getD "") = true))
    (h2 : ¬ (truthyStr nv2 ∧ trimIncludesSpace (nv2.getD "") = true))
    (hE : fl1.byEmail = fl2.byEmail) (hP : fl1.byPhone = fl2.byPhone)
    (hNT : fl1.byNameTranslated = fl2.byNameTranslated)
    (hT : fl1.byTelegram = fl2.byTelegram)
    (hTA : fl1.byTelegramWithAt = fl2.byTelegramWithAt)
    (hTO : fl1.byTelegramOriginalCase = fl2.byTelegramOriginalCase)
    (hTOA : fl1.byTelegramOriginalCaseWithAt = fl2.byTelegramOriginalCaseWithAt)
    (hTU : fl1.byTelegramUrl = fl2.byTelegramUrl) :
    runStages cfg oracle e nv1 nt tg ph fl1 cfs =
      runStages cfg oracle e nv2 nt tg ph fl2 cfs := by
  unfold runStages
  dsimp only
  rw [nameStage_skip h1, nameStage_skip h2, hE, hP, hNT,
    telegramStage_congr cfg oracle tg hT hTA hTO hTOA hTU]

lemma runStages_nameTranslated_irrelevant (cfg : PlanfixFieldIds) (oracle : Oracle)
    (e nv nt1 nt2 tg ph : Option String) {fl1 fl2 : Filters} (cfs : List FilterType)
    (h1 : ¬ (truthyStr nt1 ∧ trimIncludesSpace (nt1.getD "") = true))
    (h2 : ¬ (truthyStr nt2 ∧ trimIncludesSpace (nt2.getD "") = true))
    (hE : fl1.byEmail = fl2.byEmail) (hP : fl1.byPhone = fl2.byPhone)
    (hN : fl1.byName = fl2.byName)
    (hT : fl1.byTelegram = fl2.byTelegram)
    (hTA : fl1.byTelegramWithAt = fl2.byTelegramWithAt)
    (hTO : fl1.byTelegramOriginalCase = fl2.byTelegramOriginalCase)
    (hTOA : fl1.byTelegramOriginalCaseWithAt = fl2.byTelegramOriginalCaseWithAt)
    (hTU : fl1.byTelegramUrl = fl2.byTelegramUrl) :
    runStages cfg oracle e nv nt1 tg ph fl1 cfs =
      runStages cfg oracle e nv nt2 tg ph fl2 cfs := by
  unfold runStages
  dsimp only
  rw [nameStage_skip h1, nameStage_skip h2, hE, hP, hN,
    telegramStage_congr cfg oracle tg hT hTA hTO hTOA hTU]

/-- Claim C8: a name (or translated name) that does not contain a space after
trimming is never used to build or send a name filter — the run is identical
to the run with that field absent. -/
theorem single_token_name_skipped (cfg : PlanfixFieldIds) (args : SearchArgs)
    (cfs : List FilterType) (oracle : Oracle) (getUrl : UrlBuilder) :
    (∀ n : String, ¬ trimIncludesSpace n = true →
      planfixSearchContactImpl cfg { args with name := some n } cfs oracle getUrl =
        planfixSearchContactImpl cfg { args with name := none } cfs oracle getUrl) ∧
    (∀ m : String, ¬ trimIncludesSpace m = true →
      planfixSearchContactImpl cfg { args with nameTranslated := some m } cfs oracle getUrl =
        planfixSearchContactImpl cfg { args with nameTranslated := none } cfs oracle
          getUrl) := by
  constructor
  · intro n hn
    unfold planfixSearchContactImpl
    have hcasc : runCascade cfg { args with name := some n } cfs oracle =
        runCascade cfg { args with name := none } cfs oracle := by
      unfold runCascade
      exact runStages_name_irrelevant cfg oracle args.email (some n) none
        args.nameTranslated args.telegram (sanitizePhone args.phone) cfs
        (fun hc => hn hc.2) (fun hc => absurd hc.1 (by simp [truthyStr]))
        rfl rfl rfl rfl rfl rfl rfl rfl
    rw [hcasc]
  · intro m hm
    unfold planfixSearchContactImpl
    have hcasc : runCascade cfg { args with nameTranslated := some m } cfs oracle =
        runCascade cfg { args with nameTranslated := none } cfs oracle := by
      unfold runCascade
      exact runStages_nameTranslated_irrelevant cfg oracle args.email args.name
        (some m) none args.telegram (sanitizePhone args.phone) cfs
        (fun hc => hm hc.2) (fun hc => absurd hc.1 (by simp [truthyStr]))
        rfl rfl rfl rfl rfl rfl rfl rfl
    rw [hcasc]

/-- Claim C8 witness: the single-token name `"Single"` is never searched. -/
theorem single_token_name_skipped_witness :
    (¬ trimIncludesSpace "Single" = true) ∧
    planfixSearchContactImpl { telegram := 131 }
        { name := some "Single", email := some "a@b.c" } []
        (fun _ => Except.ok [{ id := 3 }]) (fun _ => Except.ok "u") =
      planfixSearchContactImpl { telegram := 131 }
        { name := none, email := some "a@b.c" } []
        (fun _ => Except.ok [{ id := 3 }]) (fun _ => Except.ok "u") :=
  ⟨by decide,
    (single_token_name_skipped { telegram := 131 } { email := some "a@b.c" } []
      (fun _ => Except.ok [{ id := 3 }]) (fun _ => Except.ok "u")).1 "Single" (by decide)⟩

end Planfix
